import Mathlib

/-!
Verification development for the company-research engine
(`src/core/mcp_search.py` of the company_analyze repository).

The Python functions are shallowly embedded as total Lean functions.
Every external effect (the Tavily search backend, HTTP download, the
PyMuPDF parser, the OpenAI chat backend) is passed in as an explicit
oracle argument: a successful backend call is `Except.ok` carrying the
value the call produced, a raised exception is `Except.error` carrying
the exception message.  A chat completion whose `message.content` is
Python `None` is modelled as `Except.ok none`.
-/

deriving instance DecidableEq for Except

namespace CompanyAnalyze

/-- Character-list test: `leadsWith a b` is true when `a` is an initial
segment of `b` (used to model Python's substring operator). -/
def leadsWith : List Char → List Char → Bool
  | [], _ => true
  | _ :: _, [] => false
  | a :: as, b :: bs => a == b && leadsWith as bs

/-- `subList needle hay` is true when `needle` occurs contiguously inside
`hay`; models Python's `needle in hay` on strings. -/
def subList (needle : List Char) : List Char → Bool
  | [] => needle.isEmpty
  | c :: rest => leadsWith needle (c :: rest) || subList needle rest

/-- `strHasSub hay needle`: Python's `needle in hay` for strings. -/
def strHasSub (hay needle : String) : Bool :=
  subList needle.toList hay.toList

/-- Worker for `pySplit`: accumulates the current token (reversed). -/
def pySplitAux : List Char → List Char → List String
  | [], acc => if acc.isEmpty then [] else [String.mk acc.reverse]
  | c :: rest, acc =>
    if c.isWhitespace then
      if acc.isEmpty then pySplitAux rest []
      else String.mk acc.reverse :: pySplitAux rest []
    else pySplitAux rest (c :: acc)

/-- Python `str.split()` with no argument: split on whitespace runs and
drop empty pieces. -/
def pySplit (s : String) : List String := pySplitAux s.toList []

/-- Python `str.strip()`: remove leading and trailing whitespace. -/
def pyStrip (s : String) : String :=
  String.mk (((s.toList.dropWhile Char.isWhitespace).reverse.dropWhile
    Char.isWhitespace).reverse)

/-- The expression `query.split()[0] if query else ""` used at
`mcp_search.py:64`, `583` and `779` to extract the company name.  Indexing
an empty token list raises `IndexError`, modelled by `Except.error`. -/
def pyFirstToken (q : String) : Except String String :=
  if q = "" then .ok ""
  else
    match pySplit q with
    | [] => .error "IndexError: list index out of range"
    | t :: _ => .ok t

/-- Index of the first occurrence of a character (Python `str.find`). -/
def idxOfChar (c : Char) : List Char → Option Nat
  | [] => none
  | x :: xs => if x == c then some 0 else (idxOfChar c xs).map (· + 1)

/-- Index of the last occurrence of a character (Python `str.rfind`). -/
def lastIdxOfChar (c : Char) (cs : List Char) : Option Nat :=
  match idxOfChar c cs.reverse with
  | none => none
  | some k => some (cs.length - 1 - k)

/-- The slice `text[text.find('['):text.rfind(']')+1]` taken at
`mcp_search.py:116` (caller guarantees both brackets occur). -/
def extractListPart (cs : List Char) : List Char :=
  match idxOfChar '[' cs, lastIdxOfChar ']' cs with
  | some i, some j => (cs.drop i).take (j + 1 - i)
  | _, _ => []

/-- Skip leading whitespace characters. -/
def skipWs (cs : List Char) : List Char := cs.dropWhile (·.isWhitespace)

/-- Parse one quoted Python string literal (no escape sequences); returns
the contents and the remaining characters. -/
def parseStrLit : List Char → Option (String × List Char)
  | q :: rest =>
    if q == '\'' || q == '"' then
      match rest.dropWhile (· != q) with
      | _ :: tail => some (String.mk (rest.takeWhile (· != q)), tail)
      | [] => none
    else none
  | [] => none

/-- Parse the items of a bracketed list after the opening bracket; the
fuel argument bounds recursion by the input length. -/
def parseItemsAux : Nat → List Char → Option (List String × List Char)
  | 0, _ => none
  | fuel + 1, cs =>
    match parseStrLit (skipWs cs) with
    | none => none
    | some (s, rest) =>
      match skipWs rest with
      | ']' :: tail => some ([s], tail)
      | ',' :: tail =>
        match skipWs tail with
        | ']' :: t2 => some ([s], t2)
        | _ =>
          match parseItemsAux fuel tail with
          | some (ss, r) => some (s :: ss, r)
          | none => none
      | _ => none

/-- Model of the successful outcomes of Python `eval` applied to a string
expected to be a list-of-strings literal (`mcp_search.py:339` and `588`).
`some l` means the evaluation succeeds and yields the string list `l`;
`none` covers every other outcome (a raised exception or a non-list /
non-string-list value), all of which the callers treat identically. -/
def pyEvalStrList (s : String) : Option (List String) :=
  match skipWs s.toList with
  | '[' :: rest =>
    match skipWs rest with
    | ']' :: tail => if (skipWs tail).isEmpty then some [] else none
    | _ =>
      match parseItemsAux (rest.length + 1) rest with
      | some (ss, tail) => if (skipWs tail).isEmpty then some ss else none
      | none => none
  | _ => none

/-- Python `str(list_of_strings)` for quote-free contents, as produced at
`mcp_search.py:127` and `142`. -/
def pyStrList (l : List String) : String :=
  "[" ++ String.intercalate ", " (l.map (fun s => "'" ++ s ++ "'")) ++ "]"

/-- Join a list of strings with a separator (Python `sep.join`). -/
def joinSep (sep : String) : List String → String
  | [] => ""
  | [s] => s
  | s :: t :: rest => s ++ sep ++ joinSep sep (t :: rest)

/-- One entry of a Tavily search response's `results` list; a field is
`none` when the corresponding key is absent. -/
structure TavilyResult where
  url : Option String := none
  title : Option String := none
  content : Option String := none
  raw_content : Option String := none
  image_url : Option String := none
deriving DecidableEq

/-- A Tavily search response; `results = none` models a response without
a `"results"` key. -/
structure TavilyResponse where
  results : Option (List TavilyResult) := none
deriving DecidableEq

/-- A process-log entry.  Only the `step` tag and the `error` field are
modelled; the free-form informational fields of the Python dicts do not
affect control flow. -/
structure LogEntry where
  step : String
  error : Option String := none
deriving DecidableEq

/-- `web_search` (`mcp_search.py:144-195`): extracts the `url` of every
result of the backend response, in order, with no domain filtering (the
backend call itself is made with `exclude_domains=[]`).  On a backend
exception it substitutes the sentinel fallback link. -/
def web_search (resp : Except String TavilyResponse) :
    List String × List LogEntry :=
  match resp with
  | .error e =>
    (["https://example.com/search-failed"],
     [{ step := "ウェブ検索エラー", error := some e }])
  | .ok r =>
    match r.results with
    | some rs => (rs.filterMap TavilyResult.url, [{ step := "ウェブ検索" }])
    | none => ([], [{ step := "ウェブ検索", error := some "検索結果がありません" }])

/-- Oracle for `extract_text_from_pdf`: the HTTP download outcome (status
code, or a raised exception), the PyMuPDF parse outcome (per-page texts,
or a raised exception), and the matches of the officer regex pass
(`re.findall` at `mcp_search.py:368`, given as data since the regex
engine itself is not modelled). -/
structure PdfOracle where
  download : Except String Nat
  parse : Except String (List String)
  officers : List (String × String)

/-- `extract_text_from_pdf` (`mcp_search.py:350-376`).  Note that every
failure path returns a non-empty error-message string, not `""`. -/
def extract_text_from_pdf (o : PdfOracle) : String :=
  match o.download with
  | .error e => "PDFの解析エラー: " ++ e
  | .ok status =>
    if status != 200 then
      "PDFのダウンロードに失敗しました: " ++ Nat.repr status
    else
      match o.parse with
      | .error e => "PDFの解析エラー: " ++ e
      | .ok pages =>
        let text := joinSep "" pages
        o.officers.foldl
          (fun t p => t ++ "\n\n" ++ p.1 ++ ":\n" ++ pyStrip p.2 ++ "\n") text

/-- Oracle for `fetch_webpage_text`: the PDF-branch oracle, the Tavily
scoped-search response of the non-PDF branch, and the result of
`extract_structured_data_from_html` (a total Python function whose
BeautifulSoup internals are not modelled). -/
structure FetchOracle where
  pdf : PdfOracle
  tavily : Except String TavilyResponse
  structuredOf : String → String

/-- `url.lower().endswith('.pdf')` (`mcp_search.py:419`). -/
def isPdfUrl (url : String) : Bool :=
  leadsWith ".pdf".toList.reverse ((url.toList.map Char.toLower).reverse)

/-- `fetch_webpage_text` (`mcp_search.py:415-496`).  The PDF branch
returns `extract_text_from_pdf` verbatim; the non-PDF branch returns the
first result's content (plus the structured-HTML block when raw HTML is
available), and `""` when the backend raises or returns no usable
result. -/
def fetch_webpage_text (url : String) (o : FetchOracle) :
    String × List LogEntry :=
  if isPdfUrl url then
    (extract_text_from_pdf o.pdf, [{ step := "PDFファイル処理" }])
  else
    match o.tavily with
    | .error e => ("", [{ step := "ウェブページ取得エラー", error := some e }])
    | .ok r =>
      match r.results with
      | some (res :: _) =>
        let c0 := res.content.getD ""
        let html :=
          match res.content with
          | some _ => res.raw_content.getD ""
          | none => ""
        let content :=
          if html != "" then
            let sd := o.structuredOf html
            if sd != "" then c0 ++ "\n\n構造化データ:\n" ++ sd else c0
          else c0
        (content, [{ step := "ウェブページ取得" }])
      | _ =>
        ("", [{ step := "ウェブページ取得",
                error := some "コンテンツを取得できませんでした" }])

/-- `if_useful` (`mcp_search.py:197-231`).  The chat-backend call is not
wrapped in any `try` in the source, so a raised exception propagates to
the caller (`Except.error`). -/
def if_useful (resp : Except String (Option String)) : Except String String :=
  match resp with
  | .error e => .error e
  | .ok none => .ok "No"
  | .ok (some txt) =>
    if txt == "" then .ok "No"
    else
      let answer := pyStrip txt
      if answer == "はい" || answer == "いいえ" || answer == "Yes" || answer == "No" then
        .ok (if answer == "はい" || answer == "Yes" then "Yes" else "No")
      else if strHasSub answer "はい" || strHasSub answer "Yes" then .ok "Yes"
      else if strHasSub answer "いいえ" || strHasSub answer "No" then .ok "No"
      else .ok "No"

/-- `extract_relevant_context` (`mcp_search.py:233-273`); like
`if_useful` its backend call is unguarded, so exceptions propagate. -/
def extract_relevant_context (resp : Except String (Option String)) :
    Except String String :=
  match resp with
  | .error e => .error e
  | .ok none => .ok ""
  | .ok (some txt) => if txt == "" then .ok "" else .ok (pyStrip txt)

/-- The three fallback queries built in `generate_query`'s exception
handler (`mcp_search.py:137-141`). -/
def defaultQueries3 (cn : String) : List String :=
  [cn ++ " 代表取締役 役員一覧",
   cn ++ " 会社概要 設立年 資本金",
   cn ++ " 事業内容 主要製品 サービス"]

/-- The four fallback queries used when no bracketed list is found
(`mcp_search.py:121-126`) and in `search` when evaluation of the
generated list fails or yields no usable list (`mcp_search.py:594-608`). -/
def defaultQueries4 (cn : String) : List String :=
  defaultQueries3 cn ++ [cn ++ " 企業理念 経営理念"]

/-- `generate_query` (`mcp_search.py:41-142`).  `resp` is the chat
backend's outcome.  The function returns a STRING: on success with a
bracketed response, the slice from the first `[` to the last `]`; when
no bracketed list is found, `str` of the four default queries; when the
backend call raises (or its content is `None`, making `'[' in None`
raise), `str` of the three default queries.  The only exception that can
escape is the `IndexError` of the company-name extraction, which fires
identically inside the handler. -/
def generate_query (query : String) (resp : Except String (Option String)) :
    Except String String :=
  match pyFirstToken query with
  | .error e => .error e
  | .ok cn =>
    match resp with
    | .error _ => .ok (pyStrList (defaultQueries3 cn))
    | .ok none => .ok (pyStrList (defaultQueries3 cn))
    | .ok (some rt) =>
      if rt.toList.contains '[' && rt.toList.contains ']' then
        .ok (String.mk (extractListPart rt.toList))
      else .ok (pyStrList (defaultQueries4 cn))

/-- Outcome of `get_new_search_queries`: the stop signal (the empty
string in Python) or a list of new queries. -/
inductive PlannerResult where
  | stop : PlannerResult
  | queries : List String → PlannerResult
deriving DecidableEq

/-- `get_new_search_queries` (`mcp_search.py:275-348`).  The backend call
is unguarded, so a raised exception propagates; an empty or `None`
content yields `[]`; a content that strips to `""` yields the stop
signal; otherwise the stripped text is evaluated, a string list is
returned as-is and any other outcome yields `[]`. -/
def get_new_search_queries (resp : Except String (Option String)) :
    Except String PlannerResult :=
  match resp with
  | .error e => .error e
  | .ok none => .ok (.queries [])
  | .ok (some txt) =>
    if txt == "" then .ok (.queries [])
    else
      let cleaned := pyStrip txt
      if cleaned == "" then .ok .stop
      else
        match pyEvalStrList cleaned with
        | some qs => .ok (.queries qs)
        | none => .ok (.queries [])

/-- Per-link oracle bundle for `process_link`: the fetch oracles plus
the chat-backend outcomes of the usefulness judgment and the extraction
step. -/
structure LinkOracle where
  fetch : FetchOracle
  usefulResp : Except String (Option String)
  extractResp : Except String (Option String)

/-- `process_link` (`mcp_search.py:498-511`): fetch, then judge, then
extract; empty page text or a "No" verdict or an empty extraction skips
the link (`none`); an exception raised inside `if_useful` or
`extract_relevant_context` propagates to the caller. -/
def process_link (url : String) (o : LinkOracle) :
    Except String (Option String) :=
  let page_text := (fetch_webpage_text url o.fetch).1
  if page_text == "" then .ok none
  else
    match if_useful o.usefulResp with
    | .error e => .error e
    | .ok u =>
      if u == "Yes" then
        match extract_relevant_context o.extractResp with
        | .error e => .error e
        | .ok c => .ok (if c == "" then none else some c)
      else .ok none

/-- Add the links of one query to the accumulated `(link, query)` list,
keeping the first query that produced each link (`mcp_search.py:638-643`). -/
def addLinks (q : String) : List String → List (String × String) →
    List (String × String)
  | [], acc => acc
  | l :: rest, acc =>
    if acc.any (fun p => p.1 == l) then addLinks q rest acc
    else addLinks q rest (acc ++ [(l, q)])

/-- Fold `addLinks` over the per-query link lists in order. -/
def uniqueLinksGo : List (String × List String) → List (String × String) →
    List (String × String)
  | [], acc => acc
  | (q, ls) :: rest, acc => uniqueLinksGo rest (addLinks q ls acc)

/-- The `unique_links` dict of `search`, as an insertion-ordered
association list. -/
def uniqueLinks (srs : List (String × List String)) : List (String × String) :=
  uniqueLinksGo srs []

/-- Per-round oracle bundle: the web-search backend outcome for each
query, the per-link oracles, and the continuation planner's backend
outcome. -/
structure IterOracle where
  web : String → Except String TavilyResponse
  link : String → LinkOracle
  planner : Except String (Option String)

/-- Process the unique links of one round sequentially
(`mcp_search.py:655-659`), collecting the non-`none` extracted contexts
in order; the first exception aborts the round. -/
def processLinks (o : IterOracle) : List (String × String) →
    Except String (List String)
  | [] => .ok []
  | (l, _) :: rest =>
    match process_link l (o.link l) with
    | .error e => .error e
    | .ok none => processLinks o rest
    | .ok (some c) =>
      match processLinks o rest with
      | .error e => .error e
      | .ok cs => .ok (c :: cs)

/-- One search→extract→decide round of the `search` loop body
(`mcp_search.py:620-708`): web-search every pending query, deduplicate
the links, process each link, then consult the continuation planner. -/
def runRound (o : IterOracle) (queries : List String) :
    Except String (List String × PlannerResult) :=
  let searchResults := queries.map (fun q => (q, (web_search (o.web q)).1))
  let ulinks := uniqueLinks searchResults
  match processLinks o ulinks with
  | .error e => .error e
  | .ok ctxs =>
    match get_new_search_queries o.planner with
    | .error e => .error e
    | .ok pr => .ok (ctxs, pr)

/-- The `while iteration < iteration_limit` loop of `search`
(`mcp_search.py:620-710`), with the remaining iteration budget as fuel
(`search` enters with fuel 3).  Returns the accumulated contexts (or the
propagated exception) together with the number of rounds whose body was
entered.  A stop signal or an empty new-query list breaks the loop; a
non-empty list starts the next round with exactly those queries. -/
def searchLoop (o : Nat → IterOracle) : Nat → Nat → List String →
    List String → List String → Except String (List String) × Nat
  | 0, _, _, agg, _ => (.ok agg, 0)
  | fuel + 1, iter, qs, agg, allQ =>
    match runRound (o iter) qs with
    | .error e => (.error e, 1)
    | .ok (ctxs, pr) =>
      let agg2 := agg ++ ctxs
      match pr with
      | .stop => (.ok agg2, 1)
      | .queries [] => (.ok agg2, 1)
      | .queries (q :: qs2) =>
        let r := searchLoop o fuel (iter + 1) (q :: qs2) agg2
          (allQ ++ q :: qs2)
        (r.1, r.2 + 1)

/-- `extract_company_description` (`mcp_search.py:534-569`): the
generated description on success (which is `None` — modelled `none` —
when the backend content is `None`), or the fixed non-empty fallback
message when the backend call raises. -/
def extract_company_description (cn : String)
    (resp : Except String (Option String)) : Option String :=
  match resp with
  | .error _ => some (cn ++ "に関する説明を生成できませんでした")
  | .ok d => d

/-- The initial-query computation of `search` (`mcp_search.py:586-608`):
evaluate the string produced by `generate_query`; use the resulting list
when it is a non-empty list, and the four default queries when
evaluation raises, yields a non-list, or yields an empty list. -/
def initial_queries (cn : String) (genOut : Except String String) :
    List String :=
  match genOut with
  | .error _ => defaultQueries4 cn
  | .ok s =>
    match pyEvalStrList s with
    | some [] => defaultQueries4 cn
    | some (q :: qs) => q :: qs
    | none => defaultQueries4 cn

/-- The error result produced by the top-level handler of `search`
(`mcp_search.py:724-729`). -/
def errMsg (e : String) : String := "検索中にエラーが発生しました: " ++ e

/-- The result of the `search` tool: the `content` field of the returned
JSON and whether it came from the top-level exception handler. -/
structure SearchResult where
  content : String
  isError : Bool
deriving DecidableEq

/-- Whole-invocation oracle bundle for `search`. -/
structure SearchOracle where
  gen : Except String (Option String)
  iters : Nat → IterOracle
  desc : Except String (Option String)

/-- The post-loop tail of `search` (`mcp_search.py:712-729`): a
propagated exception becomes the error result; with zero accumulated
contexts the generated company description is appended (a `None`
description makes the final `join` raise `TypeError`, which the
top-level handler converts to an error result); otherwise the contexts
are joined with blank lines. -/
def searchFinish (cn : String) (descResp : Except String (Option String)) :
    Except String (List String) → SearchResult
  | .error e => { content := errMsg e, isError := true }
  | .ok agg =>
    if agg.isEmpty then
      match extract_company_description cn descResp with
      | none =>
        { content :=
            errMsg "sequence item 0: expected str instance, NoneType found",
          isError := true }
      | some d => { content := d, isError := false }
    else { content := joinSep "\n\n" agg, isError := false }

/-- The `search` tool (`mcp_search.py:571-729`): company-name extraction,
initial query generation, at most `iteration_limit = 3` rounds, and the
final fallback/join.  The second component is the number of rounds whose
body was entered. -/
def searchRun (query : String) (o : SearchOracle) : SearchResult × Nat :=
  match pyFirstToken query with
  | .error e => ({ content := errMsg e, isError := true }, 0)
  | .ok cn =>
    let qs0 := initial_queries cn (generate_query query o.gen)
    let r := searchLoop o.iters 3 0 qs0 [] qs0
    (searchFinish cn o.desc r.1, r.2)

/-- Oracle bundle for `get_images`: the Tavily response, the outcome of
the `is_valid_image_url` network probe per URL, and the
description-generator backend outcome. -/
structure ImagesOracle where
  tavily : Except String TavilyResponse
  validUrl : String → Bool
  desc : Except String (Option String)

/-- Result of the `get_images` tool (process log omitted): the
`no_images` message, the `(url, description)` pairs stored under the
`image_N` keys, and the `error` message of the exception handler. -/
structure ImagesResult where
  no_images : Option String := none
  images : List (String × String) := []
  error : Option String := none
deriving DecidableEq

/-- The image-link collection loop of `get_images`
(`mcp_search.py:764-776`): per result, a non-empty valid `image_url` is
appended, then a valid `url` is appended. -/
def image_links_of (resp : TavilyResponse) (valid : String → Bool) :
    List String :=
  match resp.results with
  | none => []
  | some rs =>
    rs.foldl
      (fun acc item =>
        let acc :=
          match item.image_url with
          | some iu => if iu != "" && valid iu then acc ++ [iu] else acc
          | none => acc
        match item.url with
        | some u => if valid u then acc ++ [u] else acc
        | none => acc) []

/-- A generated description interpolated into an f-string; Python
renders `None` as the text `"None"`. -/
def descText (d : Option String) : String :=
  match d with
  | none => "None"
  | some s => s

/-- `get_images` (`mcp_search.py:731-828`): search, collect image links,
extract the company name (first whitespace token of the query — computed
after the search), then either the `no_images` message or up to two
`(url, company_name - description)` entries; any raised exception is
converted into the `error` field. -/
def get_images (query : String) (o : ImagesOracle) : ImagesResult :=
  match o.tavily with
  | .error e => { error := some ("画像取得中にエラーが発生しました: " ++ e) }
  | .ok resp =>
    let links := image_links_of resp o.validUrl
    match pyFirstToken query with
    | .error e => { error := some ("画像取得中にエラーが発生しました: " ++ e) }
    | .ok cn =>
      let d := descText (extract_company_description cn o.desc)
      if links.isEmpty then
        { no_images :=
            some (cn ++ "の画像は見つかりませんでしたが、以下の情報があります: " ++ d) }
      else
        { images := (links.take 2).map (fun u => (u, cn ++ " - " ++ d)) }

/-- Modelled from the spec: the structured ExtractedFact record of §3
(the compile-variant extractor and the InfoCompiler are code of this
repository that is not present under `src/`; only the spec describes
them).  `extracted_info` is the topic-category → text mapping. -/
structure ExtractedFact where
  url : String := ""
  title : String := ""
  relevance : Nat := 0
  reliability : Nat := 0
  extracted_info : List (String × String) := []
  is_official : Bool := false
  images : List String := []
deriving DecidableEq

/-- Modelled from the spec: the CompiledResult of §3, extended with the
per-category accepted-text buckets the content is assembled from, so
that provenance of narrative text can be stated. -/
structure CompiledResult where
  content : String
  images : List String
  buckets : List (String × List String)
deriving DecidableEq

/-- Modelled from the spec (§3 invariant): records with relevance < 3 or
reliability < 3 are discarded before compilation. -/
def score_filter (recs : List ExtractedFact) : List ExtractedFact :=
  recs.filter (fun r => decide (3 ≤ r.relevance) && decide (3 ≤ r.reliability))

/-- Modelled from the spec (§4.8 ranking): official-site flag as a large
constant bonus plus the sum of the relevance and reliability scores. -/
def rankKey (r : ExtractedFact) : Nat :=
  (if r.is_official then 1000 else 0) + r.relevance + r.reliability

/-- Stable descending insertion for `rankRecords`: an earlier record
stays before later records of equal key. -/
def insertRanked (r : ExtractedFact) : List ExtractedFact → List ExtractedFact
  | [] => [r]
  | x :: xs =>
    if rankKey x ≤ rankKey r then r :: x :: xs else x :: insertRanked r xs

/-- Modelled from the spec (§4.8): stable sort descending by `rankKey`. -/
def rankRecords : List ExtractedFact → List ExtractedFact
  | [] => []
  | x :: xs => insertRanked x (rankRecords xs)

/-- Modelled from the spec (§4.8): the bag of words of a text. -/
def bow (s : String) : List String := (pySplit s).eraseDups

/-- Modelled from the spec (§4.8): the near-duplicate gate — the
Jaccard-like similarity (intersection size over max set size) exceeds
0.7, expressed over naturals as `10·inter > 7·max`. -/
def simGate (a b : String) : Bool :=
  let wa := bow a
  let wb := bow b
  let inter := (wa.filter (fun w => wb.contains w)).length
  10 * inter > 7 * max wa.length wb.length

/-- Modelled from the spec (§4.8 bucket assembly): iterate the ranked
records, skipping records without text for the category, empty texts,
and texts near-duplicating an already-accepted one. -/
def bucketTextsGo (cat : String) : List ExtractedFact → List String →
    List String
  | [], acc => acc
  | r :: rest, acc =>
    match (r.extracted_info.find? (fun p => p.1 == cat)).map Prod.snd with
    | none => bucketTextsGo cat rest acc
    | some t =>
      if t == "" then bucketTextsGo cat rest acc
      else if acc.any (fun u => simGate t u) then bucketTextsGo cat rest acc
      else bucketTextsGo cat rest (acc ++ [t])

/-- Modelled from the spec (§4.8): accepted texts of one category. -/
def bucketTexts (cat : String) (ranked : List ExtractedFact) : List String :=
  bucketTextsGo cat ranked []

/-- Modelled from the spec (§3/§4.8): the compiler's six fixed topic
categories. -/
def compileCategories : List String :=
  ["management", "company_profile", "philosophy", "business",
   "performance", "other"]

/-- Modelled from the spec (§4.8): the fixed sentence substituted for an
empty mandatory section. -/
def fallbackSentence : String := "情報は現在確認できません。公式サイトをご確認ください。"

/-- Modelled from the spec (§4.8): render one category section;
`performance` and `other` render nothing when empty, the other four
render a heading with the fallback sentence. -/
def renderSection (c : String) (ts : List String) : Option String :=
  if c == "performance" || c == "other" then
    if ts.isEmpty then none else some ("## " ++ c ++ "\n" ++ joinSep "\n" ts)
  else
    some ("## " ++ c ++ "\n" ++
      (if ts.isEmpty then fallbackSentence else joinSep "\n" ts))

/-- Modelled from the spec (§4.8 and the §3 invariant):
`compile_company_info` — filter by the score gate, rank, assemble the
per-category buckets with the near-duplicate filter, render the
narrative from the buckets, and collect up to five image URLs in
first-seen order. -/
def compile_company_info (company : String) (recs : List ExtractedFact) :
    CompiledResult :=
  let ranked := rankRecords (score_filter recs)
  let buckets := compileCategories.map (fun c => (c, bucketTexts c ranked))
  let content := company ++ "\n\n" ++
    joinSep "\n\n" (buckets.filterMap (fun p => renderSection p.1 p.2))
  let images :=
    (ranked.foldl
      (fun acc r =>
        r.images.foldl (fun a i => if a.contains i then a else a ++ [i]) acc)
      []).take 5
  { content := content, images := images, buckets := buckets }

/-! ## Auxiliary lemmas -/

/-- `leadsWith` holds of a list against itself followed by anything. -/
theorem leadsWith_append : ∀ (a b : List Char), leadsWith a (a ++ b) = true
  | [], _ => rfl
  | x :: xs, b => by simp [leadsWith, leadsWith_append xs b]

/-- A list is a sublist of itself followed by anything. -/
theorem subList_append_left (a b : List Char) : subList a (a ++ b) = true := by
  cases a with
  | nil => cases b with
    | nil => rfl
    | cons c cs => simp [subList, leadsWith]
  | cons x xs =>
    show subList (x :: xs) (x :: (xs ++ b)) = true
    simp [subList, leadsWith, leadsWith_append xs b]

/-- String append acts as list append on the character data. -/
theorem toList_app (a b : String) : (a ++ b).toList = a.toList ++ b.toList := by
  cases a
  cases b
  rfl

/-- A string occurs in itself followed by any suffix. -/
theorem strHasSub_self_append (cn s : String) :
    strHasSub (cn ++ s) cn = true := by
  simp only [strHasSub, toList_app]
  exact subList_append_left cn.toList s.toList

/-- When the Python token split of `query` is non-empty, the
`query.split()[0] if query else ""` idiom returns its head. -/
theorem pyFirstToken_eq (query cn : String) (rest : List String)
    (h : pySplit query = cn :: rest) : pyFirstToken query = .ok cn := by
  unfold pyFirstToken
  by_cases hq : query = ""
  · subst hq
    rw [show pySplit "" = [] from rfl] at h
    exact absurd h (by simp)
  · rw [if_neg hq, h]

/-- The round counter of the search loop never exceeds the fuel. -/
theorem searchLoop_rounds_le (o : Nat → IterOracle) :
    ∀ (fuel iter : Nat) (qs agg allQ : List String),
      (searchLoop o fuel iter qs agg allQ).2 ≤ fuel := by
  intro fuel
  induction fuel with
  | zero => intro iter qs agg allQ; simp [searchLoop]
  | succ n ih =>
    intro iter qs agg allQ
    unfold searchLoop
    cases runRound (o iter) qs with
    | error e => simp
    | ok p =>
      obtain ⟨ctxs, pr⟩ := p
      cases pr with
      | stop => simp
      | queries qs2 =>
        cases qs2 with
        | nil => simp
        | cons q qs3 =>
          simp only
          exact Nat.succ_le_succ (ih (iter + 1) (q :: qs3) (agg ++ ctxs)
            (allQ ++ q :: qs3))

/-! ## Claim C1 -/

/-- Claim C1: for every input query and every behavior of the backends —
including a continuation planner that always requests more queries — the
`search` tool enters the body of its search→extract→decide round at most
3 times and terminates, returning a `SearchResult` (the model is a total
function, mirroring the top-level exception handler that converts even a
propagated exception into a returned error result). -/
theorem search_round_cap (query : String) (o : SearchOracle) :
    (searchRun query o).2 ≤ 3 := by
  unfold searchRun
  cases pyFirstToken query with
  | error e => simp
  | ok cn =>
    simp only
    exact searchLoop_rounds_le o.iters 3 0 _ [] _

/-- An always-continue planner oracle: every round's planner proposes a
fresh query, and no round finds any link. -/
def alwaysContinueIter : IterOracle :=
  { web := fun _ => .ok { results := some [] },
    link := fun _ =>
      { fetch := { pdf := { download := .ok 200, parse := .ok [], officers := [] },
                   tavily := .ok {}, structuredOf := fun _ => "" },
        usefulResp := .ok none, extractResp := .ok none },
    planner := .ok (some "['Acme more']") }

/-- Under an always-continue planner the loop runs exactly 3 rounds; the
cap, not the planner, ends the invocation. -/
theorem always_continue_three_rounds :
    (searchRun "Acme" { gen := .error "down",
                        iters := fun _ => alwaysContinueIter,
                        desc := .error "down" }).2 = 3 := by decide

/-! ## Claim C2 -/

/-- Oracle response containing a Wikipedia entry. -/
def wikiResp : TavilyResponse :=
  { results := some [{ url := some "https://en.wikipedia.org/wiki/Acme" }] }

/-- Claim C2 counterexample: a backend response containing an
`en.wikipedia.org` result is returned to the caller unfiltered — the
excluded-domain invariant fails on the code, which performs no domain
filtering at all. -/
theorem web_search_keeps_wikipedia :
    (web_search (.ok wikiResp)).1 = ["https://en.wikipedia.org/wiki/Acme"]
    ∧ strHasSub "https://en.wikipedia.org/wiki/Acme" "en.wikipedia.org" = true := by
  decide

/-- Claim C2 (amended): `web_search` returns exactly the `url` fields of
the backend's results, in order, with no domain filtering whatsoever
(the Tavily call is made with an empty `exclude_domains` list and the
result list is not post-filtered). -/
theorem web_search_returns_all_urls (rs : List TavilyResult) :
    (web_search (.ok { results := some rs })).1 = rs.filterMap TavilyResult.url := rfl

/-! ## Claim C3 -/

/-- A PDF oracle for links that are not PDFs (never consulted). -/
def noPdf : PdfOracle := { download := .ok 200, parse := .ok [], officers := [] }

/-- The fetch oracle of the C3 counterexample: the scoped Tavily search
succeeds and yields the page text `"sometext"`. -/
def cxFetch : FetchOracle :=
  { pdf := noPdf,
    tavily := .ok { results := some [{ url := some "https://a.com", content := some "sometext" }] },
    structuredOf := fun _ => "" }

/-- The link oracle of the C3 counterexample: the fetch succeeds with
non-empty text, the usefulness judgment's backend call raises. -/
def cxLink : LinkOracle :=
  { fetch := cxFetch, usefulResp := .error "timeout", extractResp := .ok none }

/-- The per-round oracle of the C3 counterexample. -/
def cxIter : IterOracle :=
  { web := fun _ => .ok { results := some [{ url := some "https://a.com" }] },
    link := fun _ => cxLink, planner := .ok (some "") }

/-- The whole-invocation oracle of the C3 counterexample. -/
def cxOracle : SearchOracle :=
  { gen := .error "no llm", iters := fun _ => cxIter, desc := .ok none }

/-- Claim C3 counterexample: a backend failure inside the relevance
judgment (`if_useful`) is NOT caught at the call site — it propagates
out of `process_link`, aborts the orchestrator round, and is only caught
by the top-level handler of `search`, which turns the whole invocation
into an error result instead of skipping that one link. -/
theorem if_useful_error_reaches_orchestrator :
    process_link "https://a.com" cxLink = .error "timeout"
    ∧ searchRun "Acme" cxOracle =
      ({ content := "検索中にエラーが発生しました: timeout", isError := true }, 1) := by
  decide

/-- Claim C3 (amended): backend failures in the web search and in page
fetching are caught at the call site, logged with the error string, and
converted into an empty/skip result for that unit of work; but backend
failures inside `if_useful` or `extract_relevant_context` are unguarded
and propagate out of `process_link` past the component boundary. -/
theorem backend_error_boundary :
    (∀ e : String, web_search (.error e) =
        (["https://example.com/search-failed"],
         [{ step := "ウェブ検索エラー", error := some e }]))
    ∧ (∀ (url e : String) (o : FetchOracle), isPdfUrl url = false →
        o.tavily = .error e →
        fetch_webpage_text url o =
          ("", [{ step := "ウェブページ取得エラー", error := some e }]))
    ∧ (∀ e : String, if_useful (.error e) = .error e
        ∧ extract_relevant_context (.error e) = .error e)
    ∧ (∀ (url e : String) (o : LinkOracle), o.usefulResp = .error e →
        ((fetch_webpage_text url o.fetch).1 == "") = false →
        process_link url o = .error e) := by
  refine ⟨fun e => rfl, ?_, fun e => ⟨rfl, rfl⟩, ?_⟩
  · intro url e o h1 h2
    unfold fetch_webpage_text
    rw [h1, h2]
    simp
  · intro url e o h1 h2
    unfold process_link
    rw [h1]
    simp [h2, if_useful]

/-- Witness for the amended C3 theorem at concrete inputs. -/
theorem backend_error_boundary_witness :
    web_search (.error "down") =
      (["https://example.com/search-failed"],
       [{ step := "ウェブ検索エラー", error := some "down" }])
    ∧ fetch_webpage_text "https://a.com" cxLink.fetch =
      ("sometext", [{ step := "ウェブページ取得" }])
    ∧ process_link "https://a.com" cxLink = .error "timeout" := by
  refine ⟨backend_error_boundary.1 "down", by decide, ?_⟩
  exact backend_error_boundary.2.2.2 "https://a.com" "timeout" cxLink rfl (by decide)

/-! ## Claim C4 -/

/-- A fetch oracle whose PDF download returns HTTP 404. -/
def pdf404 : FetchOracle :=
  { pdf := { download := .ok 404, parse := .ok [], officers := [] },
    tavily := .ok {}, structuredOf := fun _ => "" }

/-- Claim C4 counterexample: in the PDF branch a download failure does
NOT return the empty string — it returns a non-empty Japanese
error-message string, which then flows onward as page text. -/
theorem fetch_pdf_failure_not_empty :
    (fetch_webpage_text "https://x.com/a.pdf" pdf404).1 =
      "PDFのダウンロードに失敗しました: 404"
    ∧ ((fetch_webpage_text "https://x.com/a.pdf" pdf404).1 == "") = false := by
  decide

/-- Claim C4 (amended): `fetch_webpage_text` never raises (the model is
total, mirroring the source's handlers); in the non-PDF branch every
failure — backend exception, missing results, empty result list —
returns the empty string; in the PDF branch a failure — download
exception, non-200 status, PDF parse error — returns the corresponding
non-empty error-message string rather than the empty string. -/
theorem fetch_webpage_text_failure_modes :
    (∀ (url e : String) (o : FetchOracle), isPdfUrl url = false →
        o.tavily = .error e → (fetch_webpage_text url o).1 = "")
    ∧ (∀ (url : String) (o : FetchOracle), isPdfUrl url = false →
        o.tavily = .ok { results := none } → (fetch_webpage_text url o).1 = "")
    ∧ (∀ (url : String) (o : FetchOracle), isPdfUrl url = false →
        o.tavily = .ok { results := some [] } →
        (fetch_webpage_text url o).1 = "")
    ∧ (∀ (e : String) (p : Except String (List String))
         (ofs : List (String × String)),
        extract_text_from_pdf { download := .error e, parse := p, officers := ofs }
          = "PDFの解析エラー: " ++ e)
    ∧ (∀ (st : Nat) (p : Except String (List String))
         (ofs : List (String × String)), (st != 200) = true →
        extract_text_from_pdf { download := .ok st, parse := p, officers := ofs }
          = "PDFのダウンロードに失敗しました: " ++ Nat.repr st)
    ∧ (∀ (st : Nat) (e : String) (ofs : List (String × String)),
        (st != 200) = false →
        extract_text_from_pdf { download := .ok st, parse := .error e, officers := ofs }
          = "PDFの解析エラー: " ++ e)
    ∧ (∀ e : String, ("PDFの解析エラー: " ++ e) ≠ ""
        ∧ (∀ st : Nat, ("PDFのダウンロードに失敗しました: " ++ Nat.repr st) ≠ "")) := by
  refine ⟨?_, ?_, ?_, fun e p ofs => rfl, ?_, ?_, ?_⟩
  · intro url e o h1 h2
    unfold fetch_webpage_text
    rw [h1, h2]
    simp
  · intro url o h1 h2
    unfold fetch_webpage_text
    rw [h1, h2]
    simp
  · intro url o h1 h2
    unfold fetch_webpage_text
    rw [h1, h2]
    simp
  · intro st p ofs h
    simp [extract_text_from_pdf, h]
  · intro st e ofs h
    simp [extract_text_from_pdf, h]
  · intro e
    constructor
    · intro h
      have : ("PDFの解析エラー: " ++ e).toList = "".toList := by rw [h]
      rw [toList_app] at this
      simp at this
    · intro st h
      have : ("PDFのダウンロードに失敗しました: " ++ Nat.repr st).toList = "".toList := by
        rw [h]
      rw [toList_app] at this
      simp at this

/-- Witness for the amended C4 theorem at concrete inputs. -/
theorem fetch_webpage_text_failure_modes_witness :
    (fetch_webpage_text "https://a.com"
        { pdf := { download := .ok 200, parse := .ok [], officers := [] },
          tavily := .error "conn reset", structuredOf := fun _ => "" }).1 = ""
    ∧ extract_text_from_pdf { download := .ok 404, parse := .ok [], officers := [] }
        = "PDFのダウンロードに失敗しました: " ++ Nat.repr 404
    ∧ ("PDFの解析エラー: boom") ≠ "" := by
  refine ⟨?_, ?_, (fetch_webpage_text_failure_modes.2.2.2.2.2.2 "boom").1⟩
  · exact fetch_webpage_text_failure_modes.1 "https://a.com" "conn reset" _
      (by decide) rfl
  · exact fetch_webpage_text_failure_modes.2.2.2.2.1 404 (.ok []) [] (by decide)

/-! ## Claim C5 -/

/-- A backend response carrying twelve generated queries. -/
def twelveResp : String :=
  "['q1', 'q2', 'q3', 'q4', 'q5', 'q6', 'q7', 'q8', 'q9', 'q10', 'q11', 'q12']"

/-- Claim C5 counterexample: a generated list of 12 queries is used
verbatim as the first round's query set — it is not unioned with the
fixed baseline queries, not deduplicated against them, and not capped at
10 (12 > 10, and the baseline query is absent). -/
theorem initial_queries_exceed_cap :
    initial_queries "Acme" (generate_query "Acme" (.ok (some twelveResp)))
      = ["q1", "q2", "q3", "q4", "q5", "q6", "q7", "q8", "q9", "q10", "q11", "q12"]
    ∧ (initial_queries "Acme" (generate_query "Acme" (.ok (some twelveResp)))).length = 12
    ∧ ((initial_queries "Acme" (generate_query "Acme" (.ok (some twelveResp)))).contains
        "Acme 代表取締役 役員一覧") = false := by
  decide

/-- Claim C5 (amended): the initial query set of the first round is the
backend-generated list taken verbatim whenever it decodes to a non-empty
string list, and the fixed four default subject-qualified queries
otherwise (decode failure, non-list result, or empty list); no union
with a baseline, no deduplication and no cap are applied. -/
theorem initial_queries_amended (cn s : String) (l : List String)
    (h1 : pyEvalStrList s = some l) (h2 : l ≠ []) :
    initial_queries cn (.ok s) = l
    ∧ (∀ e : String, initial_queries cn (.error e) = defaultQueries4 cn)
    ∧ (∀ s2 : String, pyEvalStrList s2 = none →
        initial_queries cn (.ok s2) = defaultQueries4 cn)
    ∧ (∀ s2 : String, pyEvalStrList s2 = some [] →
        initial_queries cn (.ok s2) = defaultQueries4 cn) := by
  refine ⟨?_, fun e => rfl, ?_, ?_⟩
  · cases l with
    | nil => exact absurd rfl h2
    | cons q qs => simp [initial_queries, h1]
  · intro s2 h
    simp [initial_queries, h]
  · intro s2 h
    simp [initial_queries, h]

/-- Witness for the amended C5 theorem at concrete inputs. -/
theorem initial_queries_amended_witness :
    initial_queries "Acme" (.ok "['Acme news']") = ["Acme news"]
    ∧ initial_queries "Acme" (.error "boom") = defaultQueries4 "Acme"
    ∧ initial_queries "Acme" (.ok "no list") = defaultQueries4 "Acme"
    ∧ initial_queries "Acme" (.ok "[]") = defaultQueries4 "Acme" := by
  have h := initial_queries_amended "Acme" "['Acme news']" ["Acme news"]
    (by decide) (by decide)
  exact ⟨h.1, h.2.1 "boom", h.2.2.1 "no list" (by decide), h.2.2.2 "[]" (by decide)⟩

/-! ## Claim C6 -/

/-- Claim C6 counterexample: a query parsed out of a generative-backend
response is issued verbatim even when it does not contain the subject
name — both as an initial query and as a continuation-planner query —
so the subject-qualification invariant fails on the code. -/
theorem parsed_query_without_subject :
    initial_queries "Acme" (generate_query "Acme Inc" (.ok (some "['foo']"))) = ["foo"]
    ∧ strHasSub "foo" "Acme" = false
    ∧ get_new_search_queries (.ok (some "['bar']")) = .ok (.queries ["bar"])
    ∧ strHasSub "bar" "Acme" = false := by
  decide

/-- Claim C6 (amended): only the fixed default/fallback query lists are
subject-qualified by construction — every default query contains the
subject name as a substring; queries decoded from backend responses are
used verbatim with no such check. -/
theorem default_queries_contain_subject (cn : String) :
    ((defaultQueries4 cn ++ defaultQueries3 cn).all fun q => strHasSub q cn) = true := by
  simp [defaultQueries4, defaultQueries3, strHasSub_self_append]

/-! ## Claim C7 -/

/-- The prose-wrapped backend response of the spec's parsing example. -/
def proseResp : String :=
  "Here are the queries: ['Acme revenue', 'Acme CEO'] Hope this helps!"

/-- Claim C7: query-list parsing extracts exactly the slice from the
first `[` to the last `]` and decodes it (the spec example yields
exactly its two queries); when no bracketed list is found the four
default queries are returned, when the backend call raises the three
default queries are returned, and when decoding of the returned string
fails in `search` the four default queries are used — in every case a
fixed deterministic subject-qualified default list, with no exception
escaping. -/
theorem generate_query_parsing :
    (generate_query "Acme" (.ok (some proseResp)) = .ok "['Acme revenue', 'Acme CEO']"
      ∧ initial_queries "Acme" (generate_query "Acme" (.ok (some proseResp)))
          = ["Acme revenue", "Acme CEO"])
    ∧ (∀ (query cn : String) (rest : List String) (rt : String),
        pySplit query = cn :: rest →
        (rt.toList.contains '[' && rt.toList.contains ']') = true →
        generate_query query (.ok (some rt)) = .ok (String.mk (extractListPart rt.toList)))
    ∧ (∀ (query cn : String) (rest : List String) (rt : String),
        pySplit query = cn :: rest →
        (rt.toList.contains '[' && rt.toList.contains ']') = false →
        generate_query query (.ok (some rt)) = .ok (pyStrList (defaultQueries4 cn)))
    ∧ (∀ (query cn : String) (rest : List String) (e : String),
        pySplit query = cn :: rest →
        generate_query query (.error e) = .ok (pyStrList (defaultQueries3 cn)))
    ∧ (∀ (cn s : String), pyEvalStrList s = none →
        initial_queries cn (.ok s) = defaultQueries4 cn) := by
  refine ⟨by decide, ?_, ?_, ?_, ?_⟩
  · intro query cn rest rt h hb
    unfold generate_query
    rw [pyFirstToken_eq query cn rest h]
    simp only [hb]
    rfl
  · intro query cn rest rt h hb
    unfold generate_query
    rw [pyFirstToken_eq query cn rest h]
    simp only [hb]
    rfl
  · intro query cn rest e h
    unfold generate_query
    rw [pyFirstToken_eq query cn rest h]
  · intro cn s h
    simp [initial_queries, h]

/-- Witness for the C7 theorem at concrete inputs. -/
theorem generate_query_parsing_witness :
    generate_query "Acme" (.ok (some proseResp)) = .ok "['Acme revenue', 'Acme CEO']"
    ∧ generate_query "Acme Inc" (.ok (some "no brackets here"))
        = .ok (pyStrList (defaultQueries4 "Acme"))
    ∧ generate_query "Acme Inc" (.error "rate limited")
        = .ok (pyStrList (defaultQueries3 "Acme"))
    ∧ initial_queries "Acme" (.ok "garbage") = defaultQueries4 "Acme" := by
  refine ⟨generate_query_parsing.1.1, ?_, ?_, ?_⟩
  · exact generate_query_parsing.2.2.1 "Acme Inc" "Acme" ["Inc"]
      "no brackets here" (by decide) (by decide)
  · exact generate_query_parsing.2.2.2.1 "Acme Inc" "Acme" ["Inc"]
      "rate limited" (by decide)
  · exact generate_query_parsing.2.2.2.2 "Acme" "garbage" (by decide)

/-! ## Claim C8 -/

/-- The per-round oracle of the C8 counterexample: no search results, so
no links and no contexts; the planner's backend returns the empty
content, read as "no new queries". -/
def c8Iter : IterOracle :=
  { web := fun _ => .ok { results := some [] },
    link := fun _ => { fetch := cxFetch, usefulResp := .ok none, extractResp := .ok none },
    planner := .ok (some "") }

/-- The whole-invocation oracle of the C8 counterexample: the
description generator succeeds but returns the empty string. -/
def c8Oracle : SearchOracle :=
  { gen := .ok (some "no list here"), iters := fun _ => c8Iter, desc := .ok (some "") }

/-- Claim C8 counterexample: when zero context blocks are accumulated
and the generated company description is the empty string, the appended
fallback leaves the returned `content` field EMPTY — the caller receives
an empty (non-error) result, refuting "always non-empty". -/
theorem empty_description_gives_empty_content :
    searchRun "Acme" c8Oracle = ({ content := "", isError := false }, 1) := by
  decide

/-- Claim C8 (amended): when zero context blocks are accumulated across
all rounds, `search` appends the generated company description and
returns it as the whole `content`; the content is therefore non-empty
exactly when the generated description is (and the generator's own
exception fallback string is always non-empty). -/
theorem search_appends_description (query cn : String) (rest : List String)
    (o : SearchOracle) (d : String)
    (h1 : pySplit query = cn :: rest)
    (h2 : (searchLoop o.iters 3 0
        (initial_queries cn (generate_query query o.gen)) []
        (initial_queries cn (generate_query query o.gen))).1 = .ok [])
    (h3 : extract_company_description cn o.desc = some d) :
    (searchRun query o).1.content = d
    ∧ (∀ e : String,
        extract_company_description cn (.error e)
          = some (cn ++ "に関する説明を生成できませんでした")) := by
  constructor
  · unfold searchRun
    rw [pyFirstToken_eq query cn rest h1]
    simp only
    rw [h2]
    simp [searchFinish, h3]
  · intro e
    rfl

/-- The whole-invocation oracle of the C8 witness: like the C8
counterexample but with a non-empty generated description. -/
def c8wOracle : SearchOracle :=
  { gen := .ok (some "no list here"), iters := fun _ => c8Iter,
    desc := .ok (some "Acmeはロボットを製造する会社です。") }

/-- Witness for the amended C8 theorem at concrete inputs. -/
theorem search_appends_description_witness :
    (searchRun "Acme" c8wOracle).1.content = "Acmeはロボットを製造する会社です。"
    ∧ extract_company_description "Acme" (.error "down")
        = some ("Acme" ++ "に関する説明を生成できませんでした") := by
  have h := search_appends_description "Acme" "Acme" [] c8wOracle
    "Acmeはロボットを製造する会社です。" (by decide) (by decide) rfl
  exact ⟨h.1, h.2 "down"⟩

/-! ## Claim C9 -/

/-- Membership in a ranked insertion comes from the inserted record or
the original list. -/
theorem mem_insertRanked (x r : ExtractedFact) (l : List ExtractedFact)
    (h : x ∈ insertRanked r l) : x = r ∨ x ∈ l := by
  induction l with
  | nil => simpa [insertRanked] using h
  | cons y ys ih =>
    unfold insertRanked at h
    by_cases hc : rankKey y ≤ rankKey r
    · rw [if_pos hc] at h
      rcases List.mem_cons.mp h with h1 | h2
      · exact Or.inl h1
      · exact Or.inr h2
    · rw [if_neg hc] at h
      rcases List.mem_cons.mp h with h1 | h2
      · exact Or.inr (h1 ▸ List.mem_cons_self y ys)
      · rcases ih h2 with h3 | h4
        · exact Or.inl h3
        · exact Or.inr (List.mem_cons_of_mem y h4)

/-- The ranking permutes: membership in the ranked list implies
membership in the input. -/
theorem mem_rankRecords (x : ExtractedFact) (l : List ExtractedFact)
    (h : x ∈ rankRecords l) : x ∈ l := by
  induction l with
  | nil => simp [rankRecords] at h
  | cons y ys ih =>
    unfold rankRecords at h
    rcases mem_insertRanked x y (rankRecords ys) h with h1 | h2
    · exact h1 ▸ List.mem_cons_self y ys
    · exact List.mem_cons_of_mem y (ih h2)

/-- Provenance of bucket assembly: every accepted text was already in
the accumulator or is the category text of some processed record. -/
theorem bucketTextsGo_mem (cat t : String) :
    ∀ (rs : List ExtractedFact) (acc : List String),
      t ∈ bucketTextsGo cat rs acc →
      t ∈ acc ∨ ∃ r, r ∈ rs ∧
        (r.extracted_info.find? (fun p => p.1 == cat)).map Prod.snd = some t := by
  intro rs
  induction rs with
  | nil =>
    intro acc h
    exact Or.inl (by simpa [bucketTextsGo] using h)
  | cons r rest ih =>
    intro acc h
    unfold bucketTextsGo at h
    cases hf : (r.extracted_info.find? (fun p => p.1 == cat)).map Prod.snd with
    | none =>
      rw [hf] at h
      rcases ih acc h with h1 | ⟨r2, hr2, ht2⟩
      · exact Or.inl h1
      · exact Or.inr ⟨r2, List.mem_cons_of_mem r hr2, ht2⟩
    | some u =>
      rw [hf] at h
      have h2 : t ∈ (if (u == "") = true then bucketTextsGo cat rest acc
          else if (acc.any fun v => simGate u v) = true then
            bucketTextsGo cat rest acc
          else bucketTextsGo cat rest (acc ++ [u])) := h
      by_cases hu : (u == "") = true
      · rw [if_pos hu] at h2
        rcases ih acc h2 with h1 | ⟨r2, hr2, ht2⟩
        · exact Or.inl h1
        · exact Or.inr ⟨r2, List.mem_cons_of_mem r hr2, ht2⟩
      · rw [if_neg hu] at h2
        by_cases ha : (acc.any fun v => simGate u v) = true
        · rw [if_pos ha] at h2
          rcases ih acc h2 with h1 | ⟨r2, hr2, ht2⟩
          · exact Or.inl h1
          · exact Or.inr ⟨r2, List.mem_cons_of_mem r hr2, ht2⟩
        · rw [if_neg ha] at h2
          rcases ih (acc ++ [u]) h2 with h1 | ⟨r2, hr2, ht2⟩
          · rcases List.mem_append.mp h1 with h3 | h4
            · exact Or.inl h3
            · have ht : t = u := by simpa using h4
              exact Or.inr ⟨r, List.mem_cons_self r rest, ht ▸ hf⟩
          · exact Or.inr ⟨r2, List.mem_cons_of_mem r hr2, ht2⟩

/-- Claim C9 (spec-modelled): every text that reaches any topic bucket
of the compiled narrative originates from an input record with
relevance ≥ 3 and reliability ≥ 3; contrapositively, a record with
relevance < 3 or reliability < 3 is discarded before compilation and its
category text never appears in the output. -/
theorem compile_score_gate (company cat t : String) (recs : List ExtractedFact)
    (ts : List String)
    (h1 : (cat, ts) ∈ (compile_company_info company recs).buckets)
    (h2 : t ∈ ts) :
    ∃ r, r ∈ recs ∧ 3 ≤ r.relevance ∧ 3 ≤ r.reliability ∧
      (r.extracted_info.find? (fun p => p.1 == cat)).map Prod.snd = some t := by
  have hb : (compile_company_info company recs).buckets
      = compileCategories.map
          (fun c => (c, bucketTexts c (rankRecords (score_filter recs)))) := rfl
  rw [hb] at h1
  rcases List.mem_map.mp h1 with ⟨c, hc, hceq⟩
  have hcat : c = cat := congrArg Prod.fst hceq
  have hts : bucketTexts c (rankRecords (score_filter recs)) = ts :=
    congrArg Prod.snd hceq
  rw [← hts, hcat] at h2
  rcases bucketTextsGo_mem cat t (rankRecords (score_filter recs)) [] h2 with
    h3 | ⟨r, hr, hrt⟩
  · simp at h3
  · have hr2 : r ∈ score_filter recs := mem_rankRecords r _ hr
    have hsp := List.mem_filter.mp hr2
    have hscore := hsp.2
    simp only [Bool.and_eq_true, decide_eq_true_eq] at hscore
    exact ⟨r, hsp.1, hscore.1, hscore.2, hrt⟩

/-- A high-score record used by the C9 witness. -/
def okRecord : ExtractedFact :=
  { url := "https://acme.example", title := "Acme", relevance := 5, reliability := 5,
    extracted_info := [("management", "CEO Yamada Taro")], is_official := true }

/-- Witness for the C9 theorem at a concrete input. -/
theorem compile_score_gate_witness :
    ∃ r, r ∈ [okRecord] ∧ 3 ≤ r.relevance ∧ 3 ≤ r.reliability ∧
      (r.extracted_info.find? (fun p => p.1 == "management")).map Prod.snd
        = some "CEO Yamada Taro" :=
  compile_score_gate "Acme" "management" "CEO Yamada Taro" [okRecord]
    ["CEO Yamada Taro"] (by decide) (by decide)

/-- Directly: dropping the same record's relevance to 2 empties the
management bucket (the score gate in action). -/
theorem low_score_record_filtered :
    bucketTexts "management"
      (rankRecords (score_filter [{ okRecord with relevance := 2 }])) = [] := by
  decide

/-! ## Claim C10 -/

/-- A `get_images` oracle with a result list carrying no image URLs. -/
def noImagesOracle (d : String) : ImagesOracle :=
  { tavily := .ok { results := some [] }, validUrl := fun _ => false, desc := .ok (some d) }

/-- A `get_images` oracle whose single result URL probes as an image. -/
def oneImageOracle (d : String) : ImagesOracle :=
  { tavily := .ok { results := some [{ url := some "https://img.example/a.png" }] },
    validUrl := fun _ => true, desc := .ok (some d) }

/-- Claim C10: the subject name used by the fallback default queries, by
the fallback company-description messages, and by the image-result
descriptions is the FIRST whitespace-separated token of the input query
string — for a query beginning with a multi-word company name the later
words are dropped everywhere. -/
theorem subject_is_first_token (query cn : String) (rest : List String)
    (h : pySplit query = cn :: rest) :
    pyFirstToken query = .ok cn
    ∧ (∀ e : String, generate_query query (.error e)
        = .ok (pyStrList (defaultQueries3 cn)))
    ∧ (∀ e : String, extract_company_description cn (.error e)
        = some (cn ++ "に関する説明を生成できませんでした"))
    ∧ (∀ d : String, get_images query (noImagesOracle d)
        = { no_images := some (cn ++ "の画像は見つかりませんでしたが、以下の情報があります: " ++ d) })
    ∧ (∀ d : String, get_images query (oneImageOracle d)
        = { images := [("https://img.example/a.png", cn ++ " - " ++ d)] }) := by
  refine ⟨pyFirstToken_eq query cn rest h, ?_, fun e => rfl, ?_, ?_⟩
  · intro e
    unfold generate_query
    rw [pyFirstToken_eq query cn rest h]
  · intro d
    unfold get_images noImagesOracle
    rw [pyFirstToken_eq query cn rest h]
    rfl
  · intro d
    unfold get_images oneImageOracle
    rw [pyFirstToken_eq query cn rest h]
    rfl

/-- Witness for the C10 theorem at a concrete multi-word query. -/
theorem subject_is_first_token_witness :
    pyFirstToken "Acme Inc" = .ok "Acme"
    ∧ generate_query "Acme Inc" (.error "down")
        = .ok (pyStrList (defaultQueries3 "Acme"))
    ∧ extract_company_description "Acme" (.error "down")
        = some ("Acme" ++ "に関する説明を生成できませんでした")
    ∧ get_images "Acme Inc" (noImagesOracle "desc")
        = { no_images := some ("Acme" ++ "の画像は見つかりませんでしたが、以下の情報があります: " ++ "desc") }
    ∧ get_images "Acme Inc" (oneImageOracle "desc")
        = { images := [("https://img.example/a.png", "Acme" ++ " - " ++ "desc")] } := by
  have h := subject_is_first_token "Acme Inc" "Acme" ["Inc"] (by decide)
  exact ⟨h.1, h.2.1 "down", h.2.2.1 "down", h.2.2.2.1 "desc", h.2.2.2.2 "desc"⟩

end CompanyAnalyze
